import Mathlib

/-!
Shallow embedding of the Electron main process (`main.js`) of Covenantrix 2.0:
the service-lifecycle orchestrator of the `CovenantrixApp` class
(`autoStartAndConnect`, `connectToExistingService`, `startPythonService`,
`startPythonServiceVenvFallback`, `getPythonExecutablePath`,
`showServiceConnectionOptions`, `disconnectFromService`, the registered
process-exit handler) and the IPC request bridge (`api-call`, `upload-file`).

Filesystem checks, HTTP outcomes and user-dialog choices are supplied by an
explicit environment record `Env`, so every function is a pure, executable
translation of the corresponding JavaScript.  The mutable fields of the
`CovenantrixApp` singleton (`pythonProcess`) together with observation
counters (processes spawned and killed, probes issued, notifications sent,
dialogs shown, last logged start error) form the `AppState` record.
-/

/-- `this.servicePort = 8080` in the `CovenantrixApp` constructor. -/
def servicePort : Nat := 8080

/-- `this.serviceUrl` in the `CovenantrixApp` constructor. -/
def serviceUrl : String := "http://127.0.0.1:" ++ toString servicePort

/-- Per-attempt axios timeout of the fast pre-check in `autoStartAndConnect`
(`timeout: 2000`). -/
def fastPrecheckTimeoutMs : Nat := 2000

/-- Per-attempt axios timeout in `connectToExistingService` (`timeout: 1000`). -/
def probeAttemptTimeoutMs : Nat := 1000

/-- Delay between failed probe attempts in `connectToExistingService`
(`setTimeout(resolve, 1000)`). -/
def probePollIntervalMs : Nat := 1000

/-- Default `maxAttempts` parameter of `connectToExistingService`. -/
def defaultMaxAttempts : Nat := 30

/-- `maxAttempts` used by `autoStartAndConnect` after a successful launch
(`connectToExistingService(20)`). -/
def postLaunchMaxAttempts : Nat := 20

/-- `maxAttempts` used by the Retry button of `showServiceConnectionOptions`
(`connectToExistingService(10)`). -/
def retryMaxAttempts : Nat := 10

/-- Timeout of a generic `api-call` request (`timeout: 30000`). -/
def apiCallTimeoutMs : Nat := 30000

/-- Timeout of an `upload-file` request (`timeout: 60000`). -/
def uploadTimeoutMs : Nat := 60000

/-- Environment supplying the outcomes of all side effects the orchestrator
performs: HTTP health requests, `fs.existsSync` checks, `app.isPackaged`,
`process.platform`, and the user's choice in the failure dialog.
`httpStatus i` is the outcome of the i-th health request issued in this run:
`some s` when the server answered with HTTP status `s` within the attempt's
timeout, `none` when the request errored or timed out. -/
structure Env where
  httpStatus : Nat → Option Nat
  isPackaged : Bool
  platformWin32 : Bool
  platformDarwin : Bool
  fileExists : String → Bool
  dialogChoice : Nat → Nat

/-- Axios default `validateStatus`: a response resolves (does not throw) when
its status is in the 2xx range. -/
def is2xx (s : Nat) : Bool := decide (200 ≤ s ∧ s < 300)

/-- Outcome of one health request as seen by the callers: the request must
resolve (2xx within the timeout) and the code then tests
`response.status === 200`.  Any error, timeout or non-2xx status lands in the
`catch` and counts as failure. -/
def probeSuccess (r : Option Nat) : Bool :=
  match r with
  | none => false
  | some s => if is2xx s then s == 200 else false

/-- String rendering of `path.join`; paths only matter as keys of
`Env.fileExists`, so plain concatenation with a separator is used. -/
def pathJoin (a b : String) : String := a ++ "/" ++ b

/-- `__dirname` of `main.js` (`electron-app/src`). -/
def appDirname : String := "electron-app/src"

/-- `path.join(__dirname, '../../')`, the project root used by the fallback
paths. -/
def projectRoot : String := pathJoin appDirname "../.."

/-- `process.resourcesPath` of the packaged application. -/
def resourcesPath : String := "resources"

/-- Platform-specific executable name in `getPythonExecutablePath`:
`covenantrix-service.exe` on win32, `covenantrix-service` elsewhere. -/
def executableName (env : Env) : String :=
  if env.platformWin32 then "covenantrix-service.exe" else "covenantrix-service"

/-- The fixed bundled-resources path computed in packaged mode:
`path.join(process.resourcesPath, 'python-service', executableName)`. -/
def packagedExecutablePath (env : Env) : String :=
  pathJoin (pathJoin resourcesPath "python-service") (executableName env)

/-- The development build-output path:
`path.join(projectRoot, 'python-dist', executableName)`. -/
def devExecutablePath (env : Env) : String :=
  pathJoin (pathJoin projectRoot "python-dist") (executableName env)

/-- Venv interpreter path of `startPythonServiceVenvFallback`:
`Scripts/python.exe` on win32, `bin/python` elsewhere, under
`projectRoot/venv`. -/
def venvPythonPath (env : Env) : String :=
  let venvBinDir := if env.platformWin32 then "Scripts" else "bin"
  let venvPythonExe := if env.platformWin32 then "python.exe" else "python"
  pathJoin (pathJoin (pathJoin projectRoot "venv") venvBinDir) venvPythonExe

/-- Entry-point path of the fallback:
`path.join(projectRoot, 'core-rag-service', 'service_main.py')`. -/
def serviceScriptPath : String :=
  pathJoin (pathJoin projectRoot "core-rag-service") "service_main.py"

/-- State of the `CovenantrixApp` singleton plus observation counters.
`pythonProcess` is the nullable handle field; `spawned` and `killed` record,
in order, the identities of child processes created by `spawn` and killed via
`pythonProcess.kill()`; `probeCount` counts health HTTP requests issued;
`serviceReadySent` counts `webContents.send('service-ready', ...)`
notifications; `failureDialogs` counts `showServiceConnectionOptions` dialogs;
`errorBoxes` counts `showServiceError` boxes; `lastError` is the message of
the most recent launch error logged by a `catch` block. -/
structure AppState where
  pythonProcess : Option Nat
  nextPid : Nat
  spawned : List Nat
  killed : List Nat
  probeCount : Nat
  serviceReadySent : Nat
  failureDialogs : Nat
  errorBoxes : Nat
  lastError : Option String
  deriving Repr, DecidableEq

/-- State at construction of `CovenantrixApp`: `this.pythonProcess = null`,
nothing spawned, probed, sent or shown yet. -/
def initState : AppState :=
  { pythonProcess := none
    nextPid := 0
    spawned := []
    killed := []
    probeCount := 0
    serviceReadySent := 0
    failureDialogs := 0
    errorBoxes := 0
    lastError := none }

/-- One `axios.get(serviceUrl/health, ...)` call: consumes the next HTTP
outcome and reports whether the code's `response.status === 200` test passed. -/
def probeOnce (env : Env) (st : AppState) : AppState × Bool :=
  ({ st with probeCount := st.probeCount + 1 },
   probeSuccess (env.httpStatus st.probeCount))

/-- Effect of `this.pythonProcess = spawn(...)`: a fresh child process is
created, recorded in `spawned`, and the handle field is overwritten with it. -/
def spawnProcess (st : AppState) : AppState :=
  { st with
    pythonProcess := some st.nextPid
    nextPid := st.nextPid + 1
    spawned := st.spawned ++ [st.nextPid] }

/-- `getPythonExecutablePath()`: in packaged mode returns the fixed
resources path (both the darwin branch and the windows/linux branch compute
the same join) without any existence check; in development mode returns the
`python-dist` path only if `fs.existsSync` confirms it, otherwise `null` to
signal the venv fallback. -/
def getPythonExecutablePath (env : Env) : Option String :=
  if env.isPackaged then
    if env.platformDarwin then some (packagedExecutablePath env)
    else some (packagedExecutablePath env)
  else
    if env.fileExists (devExecutablePath env) then some (devExecutablePath env)
    else none

/-- `startPythonServiceVenvFallback()`: verifies the venv interpreter and the
service script with `fs.existsSync`; a missing file throws, the `catch` logs
the error and the function returns `false` with no spawn; otherwise the venv
python is spawned on the script and `true` is returned. -/
def startPythonServiceVenvFallback (env : Env) (st : AppState) : AppState × Bool :=
  let venvErr := "Venv Python executable not found at: " ++ venvPythonPath env
  let scriptErr := "Service script not found at: " ++ serviceScriptPath
  if !(env.fileExists (venvPythonPath env)) then
    ({ st with lastError := some venvErr }, false)
  else if !(env.fileExists serviceScriptPath) then
    ({ st with lastError := some scriptErr }, false)
  else
    (spawnProcess st, true)

/-- `startPythonService()`: asks `getPythonExecutablePath`; `null` delegates
to the venv fallback; otherwise the returned path is verified with
`fs.existsSync` (a missing bundled executable throws, is caught, logged, and
yields `false` with no spawn) and then spawned with no arguments. -/
def startPythonService (env : Env) (st : AppState) : AppState × Bool :=
  match getPythonExecutablePath env with
  | none => startPythonServiceVenvFallback env st
  | some p =>
    let bundledErr := "Python executable not found at: " ++ p
    if !(env.fileExists p) then
      ({ st with lastError := some bundledErr }, false)
    else
      (spawnProcess st, true)

/-- `connectToExistingService(maxAttempts)`: up to `maxAttempts` health
requests; the first one passing `response.status === 200` sends the
`service-ready` notification and returns `true`; exhaustion returns `false`. -/
def connectToExistingService (env : Env) : Nat → AppState → AppState × Bool
  | 0, st => (st, false)
  | Nat.succ n, st =>
    let r := probeOnce env st
    if r.2 then
      ({ r.1 with serviceReadySent := r.1.serviceReadySent + 1 }, true)
    else
      connectToExistingService env n r.1

/-- `showServiceConnectionOptions()`: shows the three-button failure dialog
and dispatches on the user's choice — 0 re-runs `startPythonService` (its
result is discarded), 1 shows `showServiceError`, 2 re-runs
`connectToExistingService(10)` (its result is discarded). -/
def showServiceConnectionOptions (env : Env) (st : AppState) : AppState :=
  if env.dialogChoice st.failureDialogs = 0 then
    (startPythonService env { st with failureDialogs := st.failureDialogs + 1 }).1
  else if env.dialogChoice st.failureDialogs = 1 then
    { st with failureDialogs := st.failureDialogs + 1
              errorBoxes := st.errorBoxes + 1 }
  else if env.dialogChoice st.failureDialogs = 2 then
    (connectToExistingService env retryMaxAttempts
      { st with failureDialogs := st.failureDialogs + 1 }).1
  else
    { st with failureDialogs := st.failureDialogs + 1 }

/-- `autoStartAndConnect()`: fast pre-check first — a 200 response sends
`service-ready` and returns with nothing spawned; otherwise
`startPythonService` is attempted, a failed start goes to the failure dialog,
a successful start is followed by `connectToExistingService(20)` whose
exhaustion also goes to the failure dialog. -/
def autoStartAndConnect (env : Env) (st : AppState) : AppState :=
  let pre := probeOnce env st
  if pre.2 then
    { pre.1 with serviceReadySent := pre.1.serviceReadySent + 1 }
  else
    let r := startPythonService env pre.1
    if r.2 then
      let c := connectToExistingService env postLaunchMaxAttempts r.1
      if c.2 then c.1 else showServiceConnectionOptions env c.1
    else
      showServiceConnectionOptions env r.1

/-- `disconnectFromService()`: kills the owned child process and clears the
handle when one is held, otherwise only logs and leaves the service running. -/
def disconnectFromService (st : AppState) : AppState :=
  match st.pythonProcess with
  | some pid =>
    { st with pythonProcess := none, killed := st.killed ++ [pid] }
  | none => st

/-- Observable effects an event handler can produce towards the log, the UI
layer or the user. -/
inductive Effect where
  | logExit (code : Option Int) (signal : Option String)
  | notifyServiceReady
  | showRecoveryDialog
  deriving Repr, DecidableEq

/-- The registered process-exit handler
`this.pythonProcess.on('exit', (code, signal) => console.log(...))`:
it logs the code and signal and does nothing else. -/
def onPythonExit (st : AppState) (code : Option Int) (signal : Option String) :
    AppState × List Effect :=
  (st, [Effect.logExit code signal])

/-- The spec's `ConnectionState` labels. -/
inductive ConnState where
  | Idle
  | Probing
  | Launching
  | WaitingForReady
  | Ready
  | Failed
  deriving Repr, DecidableEq

/-- Modelled from the spec: the specification attaches `ConnectionState`
labels (`Idle, Probing, Launching, WaitingForReady, Ready, Failed`) to the
phases of the startup cycle, while the code keeps no explicit state variable.
This observer labels the branches of the embedded `autoStartAndConnect`
control flow with the states of the spec's diagram, so code and spec can be
compared. -/
def autoStartTrace (env : Env) (st : AppState) : List ConnState :=
  let pre := probeOnce env st
  if pre.2 then
    [ConnState.Idle, ConnState.Probing, ConnState.Ready]
  else
    let r := startPythonService env pre.1
    if r.2 then
      if (connectToExistingService env postLaunchMaxAttempts r.1).2 then
        [ConnState.Idle, ConnState.Probing, ConnState.Launching,
         ConnState.WaitingForReady, ConnState.Ready]
      else
        [ConnState.Idle, ConnState.Probing, ConnState.Launching,
         ConnState.WaitingForReady, ConnState.Failed]
    else
      [ConnState.Idle, ConnState.Probing, ConnState.Launching, ConnState.Failed]

/-- Child processes spawned by the orchestrator and not (yet) killed by it. -/
def liveProcs (st : AppState) : List Nat :=
  st.spawned.filter (fun p => !(st.killed.contains p))

/-- JavaScript values as they can arrive through the IPC `data` argument;
`truthy` mirrors JavaScript truthiness as tested by `if (data)`. -/
inductive JsValue where
  | vnull
  | vundef
  | vbool (b : Bool)
  | vnum (n : Int)
  | vstr (s : String)
  | vobj (fields : List (String × String))
  deriving Repr, DecidableEq

/-- JavaScript truthiness: `null`, `undefined`, `false`, `0` and the empty
string are falsy; every object is truthy. -/
def JsValue.truthy : JsValue → Bool
  | JsValue.vnull => false
  | JsValue.vundef => false
  | JsValue.vbool b => b
  | JsValue.vnum n => n != 0
  | JsValue.vstr s => s != ""
  | JsValue.vobj _ => true

/-- The axios request configuration assembled by the `api-call` handler. -/
structure AxiosConfig where
  method : String
  url : String
  timeoutMs : Nat
  params : Option JsValue
  data : Option JsValue
  deriving Repr, DecidableEq

/-- Configuration assembly of `ipcMain.handle('api-call', ...)`: base config
with method, url and 30s timeout; `if (data)` then a `GET` method puts the
data into `config.params`, any other method puts it into `config.data`. -/
def buildApiCallConfig (method endpoint : String) (data : JsValue) : AxiosConfig :=
  let base : AxiosConfig :=
    { method := method
      url := serviceUrl ++ endpoint
      timeoutMs := apiCallTimeoutMs
      params := none
      data := none }
  if data.truthy then
    if method = "GET" then { base with params := some data }
    else { base with data := some data }
  else base

/-- Structured result returned to the renderer by the bridge handlers. -/
structure BridgeResult where
  success : Bool
  data : Option String
  error : Option String
  deriving Repr, DecidableEq

/-- Outcome of the one network request a bridge handler performs: `ok` with a
response payload, or a rejection with an error message. -/
structure NetOutcome where
  ok : Bool
  payload : String
  errMsg : String
  deriving Repr, DecidableEq

/-- `ipcMain.handle('upload-file', ...)`: builds the multipart form and posts
it to `serviceUrl/api/documents/upload` unconditionally — the handler
consults no connection state (the `st` argument is unused, mirroring that the
closure reads only `this.serviceUrl`).  The returned pair carries the
structured result and the number of network attempts made (always one). -/
def uploadFileHandler (st : AppState) (filePath folderId : String)
    (net : NetOutcome) : BridgeResult × Nat :=
  let keep := (st, filePath, folderId)
  let attempts := (fun _ => 1) keep
  if net.ok then
    ({ success := true, data := some net.payload, error := none }, attempts)
  else
    ({ success := false, data := none, error := some net.errMsg }, attempts)

/-- Entry points of the embedded orchestrator, each carrying the environment
it runs against: window startup (`autoStartAndConnect`), a direct
`connectToExistingService` call, the failure dialog, `disconnectFromService`
(window-all-closed / before-quit), and a delivered process-exit event. -/
inductive Op where
  | autoStart (env : Env)
  | connectExisting (env : Env) (maxAttempts : Nat)
  | showOptions (env : Env)
  | disconnect
  | procExit (code : Option Int) (signal : Option String)

/-- Apply one entry point to the application state. -/
def applyOp : Op → AppState → AppState
  | Op.autoStart env, st => autoStartAndConnect env st
  | Op.connectExisting env n, st => (connectToExistingService env n st).1
  | Op.showOptions env, st => showServiceConnectionOptions env st
  | Op.disconnect, st => disconnectFromService st
  | Op.procExit c s, st => (onPythonExit st c s).1

/-- Run a sequence of entry points from a starting state. -/
def run : List Op → AppState → AppState
  | [], st => st
  | op :: ops, st => run ops (applyOp op st)

/-- Ownership invariant: every process the orchestrator ever killed is one it
itself spawned, and the handle field only ever references a process it
spawned. -/
def OwnsOnlySpawned (st : AppState) : Prop :=
  (∀ p, p ∈ st.killed → p ∈ st.spawned) ∧
  (∀ p, st.pythonProcess = some p → p ∈ st.spawned)

theorem connect_step_succ (env : Env) (n : Nat) (st : AppState)
    (h : probeSuccess (env.httpStatus st.probeCount) = true) :
    connectToExistingService env (n + 1) st =
      ({ st with probeCount := st.probeCount + 1
                 serviceReadySent := st.serviceReadySent + 1 }, true) := by
  simp [connectToExistingService, probeOnce, h]

theorem connect_step_fail (env : Env) (n : Nat) (st : AppState)
    (h : probeSuccess (env.httpStatus st.probeCount) = false) :
    connectToExistingService env (n + 1) st =
      connectToExistingService env n ({ st with probeCount := st.probeCount + 1 }) := by
  simp [connectToExistingService, probeOnce, h]

theorem connect_preserves (env : Env) (n : Nat) (st : AppState) :
    (connectToExistingService env n st).1.spawned = st.spawned ∧
    (connectToExistingService env n st).1.killed = st.killed ∧
    (connectToExistingService env n st).1.pythonProcess = st.pythonProcess ∧
    (connectToExistingService env n st).1.nextPid = st.nextPid ∧
    (connectToExistingService env n st).1.failureDialogs = st.failureDialogs ∧
    (connectToExistingService env n st).1.errorBoxes = st.errorBoxes ∧
    (connectToExistingService env n st).1.lastError = st.lastError := by
  induction n generalizing st with
  | zero => simp [connectToExistingService]
  | succ n ih =>
    by_cases h : probeSuccess (env.httpStatus st.probeCount) = true
    · rw [connect_step_succ env n st h]
      simp
    · simp only [Bool.not_eq_true] at h
      rw [connect_step_fail env n st h]
      exact ih _

theorem connect_probeCount_mono (env : Env) (n : Nat) (st : AppState) :
    st.probeCount ≤ (connectToExistingService env n st).1.probeCount := by
  induction n generalizing st with
  | zero => simp [connectToExistingService]
  | succ n ih =>
    by_cases h : probeSuccess (env.httpStatus st.probeCount) = true
    · rw [connect_step_succ env n st h]
      simp
    · simp only [Bool.not_eq_true] at h
      rw [connect_step_fail env n st h]
      have := ih ({ st with probeCount := st.probeCount + 1 })
      simp at this
      omega

theorem connect_probeCount_le (env : Env) (n : Nat) (st : AppState) :
    (connectToExistingService env n st).1.probeCount ≤ st.probeCount + n := by
  induction n generalizing st with
  | zero => simp [connectToExistingService]
  | succ n ih =>
    by_cases h : probeSuccess (env.httpStatus st.probeCount) = true
    · rw [connect_step_succ env n st h]
      simp
    · simp only [Bool.not_eq_true] at h
      rw [connect_step_fail env n st h]
      have := ih ({ st with probeCount := st.probeCount + 1 })
      simp at this
      omega

theorem connect_ready_probe (env : Env) (n : Nat) (st : AppState)
    (h : st.serviceReadySent < (connectToExistingService env n st).1.serviceReadySent) :
    ∃ i, st.probeCount ≤ i ∧ i < (connectToExistingService env n st).1.probeCount ∧
      probeSuccess (env.httpStatus i) = true := by
  induction n generalizing st with
  | zero => simp [connectToExistingService] at h
  | succ n ih =>
    by_cases hp : probeSuccess (env.httpStatus st.probeCount) = true
    · refine ⟨st.probeCount, Nat.le_refl _, ?_, hp⟩
      rw [connect_step_succ env n st hp]
      simp
    · simp only [Bool.not_eq_true] at hp
      rw [connect_step_fail env n st hp] at h ⊢
      obtain ⟨i, h1, h2, h3⟩ := ih ({ st with probeCount := st.probeCount + 1 }) h
      simp only [AppState.mk.injEq] at h1 ⊢
      exact ⟨i, by omega, h2, h3⟩

theorem connect_all_fail (env : Env)
    (hall : ∀ i, probeSuccess (env.httpStatus i) = false) (n : Nat) (st : AppState) :
    (connectToExistingService env n st).1.probeCount = st.probeCount + n ∧
    (connectToExistingService env n st).2 = false ∧
    (connectToExistingService env n st).1.serviceReadySent = st.serviceReadySent := by
  induction n generalizing st with
  | zero => simp [connectToExistingService]
  | succ n ih =>
    rw [connect_step_fail env n st (hall st.probeCount)]
    have := ih ({ st with probeCount := st.probeCount + 1 })
    simp at this
    refine ⟨by omega, this.2.1, this.2.2⟩

theorem start_preserves (env : Env) (st : AppState) :
    (startPythonService env st).1.probeCount = st.probeCount ∧
    (startPythonService env st).1.serviceReadySent = st.serviceReadySent ∧
    (startPythonService env st).1.killed = st.killed ∧
    (startPythonService env st).1.failureDialogs = st.failureDialogs ∧
    (startPythonService env st).1.errorBoxes = st.errorBoxes := by
  cases hE : getPythonExecutablePath env with
  | none =>
    simp only [startPythonService, hE]
    cases h1 : env.fileExists (venvPythonPath env) with
    | false => simp [startPythonServiceVenvFallback, h1]
    | true =>
      cases h2 : env.fileExists serviceScriptPath with
      | false => simp [startPythonServiceVenvFallback, h1, h2]
      | true => simp [startPythonServiceVenvFallback, h1, h2, spawnProcess]
  | some p =>
    simp only [startPythonService, hE]
    cases h1 : env.fileExists p with
    | false => simp [h1]
    | true => simp [h1, spawnProcess]

theorem start_spawn_shape (env : Env) (st : AppState) :
    ((startPythonService env st).1.spawned = st.spawned ∧
     (startPythonService env st).1.pythonProcess = st.pythonProcess ∧
     (startPythonService env st).1.nextPid = st.nextPid ∧
     (startPythonService env st).2 = false) ∨
    ((startPythonService env st).1.spawned = st.spawned ++ [st.nextPid] ∧
     (startPythonService env st).1.pythonProcess = some st.nextPid ∧
     (startPythonService env st).1.nextPid = st.nextPid + 1 ∧
     (startPythonService env st).2 = true) := by
  cases hE : getPythonExecutablePath env with
  | none =>
    simp only [startPythonService, hE]
    cases h1 : env.fileExists (venvPythonPath env) with
    | false => left; simp [startPythonServiceVenvFallback, h1]
    | true =>
      cases h2 : env.fileExists serviceScriptPath with
      | false => left; simp [startPythonServiceVenvFallback, h1, h2]
      | true => right; simp [startPythonServiceVenvFallback, h1, h2, spawnProcess]
  | some p =>
    simp only [startPythonService, hE]
    cases h1 : env.fileExists p with
    | false => left; simp [h1]
    | true => right; simp [h1, spawnProcess]

theorem dialog_probeCount_mono (env : Env) (st : AppState) :
    st.probeCount ≤ (showServiceConnectionOptions env st).probeCount := by
  unfold showServiceConnectionOptions
  split_ifs with h0 h1 h2
  · have := start_preserves env ({ st with failureDialogs := st.failureDialogs + 1 })
    simp at this
    omega
  · simp
  · have := connect_probeCount_mono env retryMaxAttempts
      ({ st with failureDialogs := st.failureDialogs + 1 })
    simp at this
    omega
  · simp

theorem dialog_ready_probe (env : Env) (st : AppState)
    (h : st.serviceReadySent < (showServiceConnectionOptions env st).serviceReadySent) :
    ∃ i, st.probeCount ≤ i ∧ i < (showServiceConnectionOptions env st).probeCount ∧
      probeSuccess (env.httpStatus i) = true := by
  unfold showServiceConnectionOptions at h ⊢
  split_ifs at h ⊢ with h0 h1 h2
  · have := start_preserves env ({ st with failureDialogs := st.failureDialogs + 1 })
    simp at this
    omega
  · simp at h
  · obtain ⟨i, hi1, hi2, hi3⟩ := connect_ready_probe env retryMaxAttempts
      ({ st with failureDialogs := st.failureDialogs + 1 }) (by simpa using h)
    simp at hi1
    exact ⟨i, hi1, hi2, hi3⟩
  · simp at h

theorem auto_pre_succ_eq (env : Env) (st : AppState)
    (h : probeSuccess (env.httpStatus st.probeCount) = true) :
    autoStartAndConnect env st =
      { st with probeCount := st.probeCount + 1
                serviceReadySent := st.serviceReadySent + 1 } := by
  simp [autoStartAndConnect, probeOnce, h]

theorem auto_pre_fail_eq (env : Env) (st : AppState)
    (h : probeSuccess (env.httpStatus st.probeCount) = false) :
    autoStartAndConnect env st =
      (if (startPythonService env { st with probeCount := st.probeCount + 1 }).2 = true then
        (if (connectToExistingService env postLaunchMaxAttempts
              (startPythonService env { st with probeCount := st.probeCount + 1 }).1).2 = true then
          (connectToExistingService env postLaunchMaxAttempts
            (startPythonService env { st with probeCount := st.probeCount + 1 }).1).1
        else
          showServiceConnectionOptions env
            (connectToExistingService env postLaunchMaxAttempts
              (startPythonService env { st with probeCount := st.probeCount + 1 }).1).1)
      else
        showServiceConnectionOptions env
          (startPythonService env { st with probeCount := st.probeCount + 1 }).1) := by
  simp [autoStartAndConnect, probeOnce, h]

theorem connect_ready_mono (env : Env) (n : Nat) (st : AppState) :
    st.serviceReadySent ≤ (connectToExistingService env n st).1.serviceReadySent := by
  induction n generalizing st with
  | zero => simp [connectToExistingService]
  | succ n ih =>
    by_cases h : probeSuccess (env.httpStatus st.probeCount) = true
    · rw [connect_step_succ env n st h]
      simp
    · simp only [Bool.not_eq_true] at h
      rw [connect_step_fail env n st h]
      have := ih ({ st with probeCount := st.probeCount + 1 })
      simp at this
      omega

theorem auto_ready_probe (env : Env) (st : AppState)
    (h : st.serviceReadySent < (autoStartAndConnect env st).serviceReadySent) :
    ∃ i, st.probeCount ≤ i ∧ i < (autoStartAndConnect env st).probeCount ∧
      probeSuccess (env.httpStatus i) = true := by
  by_cases hp : probeSuccess (env.httpStatus st.probeCount) = true
  · refine ⟨st.probeCount, Nat.le_refl _, ?_, hp⟩
    rw [auto_pre_succ_eq env st hp]
    simp
  · simp only [Bool.not_eq_true] at hp
    rw [auto_pre_fail_eq env st hp] at h ⊢
    obtain ⟨e1, e2, e3, e4, e5⟩ :=
      start_preserves env ({ st with probeCount := st.probeCount + 1 })
    simp at e1 e2
    cases hs : (startPythonService env { st with probeCount := st.probeCount + 1 }).2 with
    | false =>
      simp only [hs, Bool.false_eq_true, if_false] at h ⊢
      obtain ⟨i, hi1, hi2, hi3⟩ := dialog_ready_probe env
        (startPythonService env { st with probeCount := st.probeCount + 1 }).1
        (by omega)
      refine ⟨i, by omega, hi2, hi3⟩
    | true =>
      simp only [hs, if_true] at h ⊢
      cases hc : (connectToExistingService env postLaunchMaxAttempts
          (startPythonService env { st with probeCount := st.probeCount + 1 }).1).2 with
      | true =>
        simp only [hc, if_true] at h ⊢
        obtain ⟨i, hi1, hi2, hi3⟩ := connect_ready_probe env postLaunchMaxAttempts
          (startPythonService env { st with probeCount := st.probeCount + 1 }).1
          (by omega)
        refine ⟨i, by omega, hi2, hi3⟩
      | false =>
        simp only [hc, Bool.false_eq_true, if_false] at h ⊢
        by_cases hcr : (startPythonService env
            { st with probeCount := st.probeCount + 1 }).1.serviceReadySent <
            (connectToExistingService env postLaunchMaxAttempts
              (startPythonService env { st with probeCount := st.probeCount + 1 }).1).1.serviceReadySent
        · obtain ⟨i, hi1, hi2, hi3⟩ := connect_ready_probe env postLaunchMaxAttempts
            (startPythonService env { st with probeCount := st.probeCount + 1 }).1 hcr
          have hmono := dialog_probeCount_mono env
            (connectToExistingService env postLaunchMaxAttempts
              (startPythonService env { st with probeCount := st.probeCount + 1 }).1).1
          refine ⟨i, by omega, by omega, hi3⟩
        · have hge := connect_ready_mono env postLaunchMaxAttempts
            (startPythonService env { st with probeCount := st.probeCount + 1 }).1
          obtain ⟨i, hi1, hi2, hi3⟩ := dialog_ready_probe env
            (connectToExistingService env postLaunchMaxAttempts
              (startPythonService env { st with probeCount := st.probeCount + 1 }).1).1
            (by omega)
          have hmono2 := connect_probeCount_mono env postLaunchMaxAttempts
            (startPythonService env { st with probeCount := st.probeCount + 1 }).1
          refine ⟨i, by omega, hi2, hi3⟩

theorem spawn_owns (st : AppState) (h : OwnsOnlySpawned st) :
    OwnsOnlySpawned (spawnProcess st) := by
  obtain ⟨hk, hp⟩ := h
  constructor
  · intro p hpk
    simp only [spawnProcess] at hpk ⊢
    simp only [List.mem_append, List.mem_singleton]
    exact Or.inl (hk p hpk)
  · intro p hpp
    simp only [spawnProcess] at hpp ⊢
    simp only [Option.some.injEq] at hpp
    simp only [List.mem_append, List.mem_singleton]
    exact Or.inr hpp.symm

theorem start_owns (env : Env) (st : AppState) (h : OwnsOnlySpawned st) :
    OwnsOnlySpawned (startPythonService env st).1 := by
  cases hE : getPythonExecutablePath env with
  | none =>
    simp only [startPythonService, hE]
    cases h1 : env.fileExists (venvPythonPath env) with
    | false =>
      simp only [startPythonServiceVenvFallback, h1, Bool.not_false, if_true]
      exact ⟨h.1, h.2⟩
    | true =>
      cases h2 : env.fileExists serviceScriptPath with
      | false =>
        simp only [startPythonServiceVenvFallback, h1, h2, Bool.not_false,
          Bool.not_true, Bool.false_eq_true, if_false, if_true]
        exact ⟨h.1, h.2⟩
      | true =>
        simp only [startPythonServiceVenvFallback, h1, h2, Bool.not_true,
          Bool.false_eq_true, if_false]
        exact spawn_owns st h
  | some p =>
    simp only [startPythonService, hE]
    cases h1 : env.fileExists p with
    | false =>
      simp only [h1, Bool.not_false, if_true]
      exact ⟨h.1, h.2⟩
    | true =>
      simp only [h1, Bool.not_true, Bool.false_eq_true, if_false]
      exact spawn_owns st h

theorem connect_owns (env : Env) (n : Nat) (st : AppState) (h : OwnsOnlySpawned st) :
    OwnsOnlySpawned (connectToExistingService env n st).1 := by
  obtain ⟨hs, hk, hp, -⟩ := connect_preserves env n st
  constructor
  · intro p hpk
    rw [hs]
    rw [hk] at hpk
    exact h.1 p hpk
  · intro p hpp
    rw [hs]
    rw [hp] at hpp
    exact h.2 p hpp

theorem dialog_owns (env : Env) (st : AppState) (h : OwnsOnlySpawned st) :
    OwnsOnlySpawned (showServiceConnectionOptions env st) := by
  have hbase : OwnsOnlySpawned ({ st with failureDialogs := st.failureDialogs + 1 }) := by
    exact ⟨h.1, h.2⟩
  unfold showServiceConnectionOptions
  split_ifs
  · exact start_owns env _ hbase
  · exact ⟨h.1, h.2⟩
  · exact connect_owns env retryMaxAttempts _ hbase
  · exact hbase

theorem auto_owns (env : Env) (st : AppState) (h : OwnsOnlySpawned st) :
    OwnsOnlySpawned (autoStartAndConnect env st) := by
  have hpre : OwnsOnlySpawned ({ st with probeCount := st.probeCount + 1 }) := ⟨h.1, h.2⟩
  by_cases hp : probeSuccess (env.httpStatus st.probeCount) = true
  · rw [auto_pre_succ_eq env st hp]
    exact ⟨h.1, h.2⟩
  · simp only [Bool.not_eq_true] at hp
    rw [auto_pre_fail_eq env st hp]
    have hstart := start_owns env _ hpre
    split_ifs
    · exact connect_owns env postLaunchMaxAttempts _ hstart
    · exact dialog_owns env _ (connect_owns env postLaunchMaxAttempts _ hstart)
    · exact dialog_owns env _ hstart

theorem disconnect_owns (st : AppState) (h : OwnsOnlySpawned st) :
    OwnsOnlySpawned (disconnectFromService st) := by
  cases hpp : st.pythonProcess with
  | none => simpa [disconnectFromService, hpp] using h
  | some pid =>
    simp only [disconnectFromService, hpp]
    constructor
    · intro p hpk
      simp only [List.mem_append, List.mem_singleton] at hpk
      cases hpk with
      | inl hin => exact h.1 p hin
      | inr heq => exact heq ▸ h.2 pid hpp
    · intro p hpp2
      simp at hpp2

theorem applyOp_owns (op : Op) (st : AppState) (h : OwnsOnlySpawned st) :
    OwnsOnlySpawned (applyOp op st) := by
  cases op with
  | autoStart env => exact auto_owns env st h
  | connectExisting env n => exact connect_owns env n st h
  | showOptions env => exact dialog_owns env st h
  | disconnect => exact disconnect_owns st h
  | procExit c s => exact h

theorem run_owns (ops : List Op) (st : AppState) (h : OwnsOnlySpawned st) :
    OwnsOnlySpawned (run ops st) := by
  induction ops generalizing st with
  | nil => exact h
  | cons op ops ih => exact ih _ (applyOp_owns op st h)

theorem init_owns : OwnsOnlySpawned initState := by
  constructor
  · intro p hp
    simp [initState] at hp
  · intro p hp
    simp [initState] at hp

/-- Timed account of one run of the `connectToExistingService` loop, mirroring
its control flow: `attemptDuration i` is the elapsed time of the i-th health
request (axios enforces `attemptDuration i ≤ probeAttemptTimeoutMs`).  A
resolved 200 response ends the loop after the attempt; a resolved non-200
2xx response falls through the status test and loops again without sleeping;
a rejected request (error, timeout, non-2xx status) is caught and sleeps
`probePollIntervalMs` before the next attempt. -/
def connectTimedElapsed (env : Env) (attemptDuration : Nat → Nat) :
    Nat → Nat → Nat
  | 0, _ => 0
  | Nat.succ n, i =>
    match env.httpStatus i with
    | some s =>
      if is2xx s then
        if s == 200 then attemptDuration i
        else attemptDuration i + connectTimedElapsed env attemptDuration n (i + 1)
      else attemptDuration i + probePollIntervalMs +
        connectTimedElapsed env attemptDuration n (i + 1)
    | none => attemptDuration i + probePollIntervalMs +
      connectTimedElapsed env attemptDuration n (i + 1)

theorem connectTimedElapsed_le (env : Env) (attemptDuration : Nat → Nat)
    (hd : ∀ i, attemptDuration i ≤ probeAttemptTimeoutMs) (n i : Nat) :
    connectTimedElapsed env attemptDuration n i ≤
      n * (probeAttemptTimeoutMs + probePollIntervalMs) := by
  induction n generalizing i with
  | zero => simp [connectTimedElapsed]
  | succ n ih =>
    have hdi := hd i
    have hrec := ih (i + 1)
    simp only [connectTimedElapsed]
    cases hst : env.httpStatus i with
    | none =>
      simp only []
      simp only [probeAttemptTimeoutMs, probePollIntervalMs] at hdi hrec ⊢
      omega
    | some s =>
      by_cases h2 : is2xx s = true
      · by_cases h200 : (s == 200) = true
        · simp only [h2, h200, if_true]
          simp only [probeAttemptTimeoutMs, probePollIntervalMs] at hdi ⊢
          omega
        · simp only [h2, h200, if_true, Bool.false_eq_true, if_false]
          simp only [probeAttemptTimeoutMs, probePollIntervalMs] at hdi hrec ⊢
          omega
      · simp only [Bool.not_eq_true] at h2
        simp only [h2, Bool.false_eq_true, if_false]
        simp only [probeAttemptTimeoutMs, probePollIntervalMs] at hdi hrec ⊢
        omega

theorem getPy_packaged (env : Env) (hpack : env.isPackaged = true) :
    getPythonExecutablePath env = some (packagedExecutablePath env) := by
  simp [getPythonExecutablePath, hpack]

theorem start_packaged_eq (env : Env) (st : AppState)
    (hpack : env.isPackaged = true)
    (hex : env.fileExists (packagedExecutablePath env) = true) :
    startPythonService env st = (spawnProcess st, true) := by
  simp [startPythonService, getPy_packaged env hpack, hex]

theorem start_fallback_fail (env : Env)
    (hdev : env.isPackaged = false)
    (hbundled : env.fileExists (devExecutablePath env) = false)
    (hfallback : env.fileExists (venvPythonPath env) = false ∨
      env.fileExists serviceScriptPath = false) (st : AppState) :
    (startPythonService env st).2 = false ∧
    (startPythonService env st).1.spawned = st.spawned ∧
    (startPythonService env st).1.pythonProcess = st.pythonProcess ∧
    (startPythonService env st).1.failureDialogs = st.failureDialogs ∧
    (startPythonService env st).1.probeCount = st.probeCount ∧
    ((startPythonService env st).1.lastError =
        some ("Venv Python executable not found at: " ++ venvPythonPath env) ∨
     (startPythonService env st).1.lastError =
        some ("Service script not found at: " ++ serviceScriptPath)) := by
  have hE : getPythonExecutablePath env = none := by
    simp [getPythonExecutablePath, hdev, hbundled]
  simp only [startPythonService, hE]
  cases h1 : env.fileExists (venvPythonPath env) with
  | false => simp [startPythonServiceVenvFallback, h1]
  | true =>
    cases hfallback with
    | inl h => simp [h] at h1
    | inr h2 => simp [startPythonServiceVenvFallback, h1, h2]

/-- Environment of a run that reaches `Ready` with an orchestrator-owned
child process: the fast pre-check errors, the app is packaged with the
bundled executable present, and the first post-launch probe answers 200. -/
def c1Env : Env :=
  { httpStatus := fun i => if i = 0 then none else some 200
    isPackaged := true
    platformWin32 := true
    platformDarwin := false
    fileExists := fun _ => true
    dialogChoice := fun _ => 0 }

/-- The `Ready` state reached under `c1Env`: `service-ready` has been sent
and the orchestrator owns the child process it spawned. -/
def c1ReadyState : AppState := autoStartAndConnect c1Env initState

/-- Environment where the fast pre-check resolves with HTTP 204 — a 2xx
success in the sense of the spec — while the bundled executable exists and
every later probe also answers 204; the user picks the manual-instructions
button in the failure dialog. -/
def c2xEnv : Env :=
  { httpStatus := fun _ => some 204
    isPackaged := true
    platformWin32 := false
    platformDarwin := false
    fileExists := fun _ => true
    dialogChoice := fun _ => 1 }

/-- Environment where the fast pre-check succeeds with HTTP 200 at once. -/
def c2Env : Env :=
  { httpStatus := fun _ => some 200
    isPackaged := true
    platformWin32 := false
    platformDarwin := false
    fileExists := fun _ => true
    dialogChoice := fun _ => 1 }

/-- Environment where the service never answers, the bundled executable
exists, and the user answers the failure dialog with the automatic-retry
button. -/
def c3Env : Env :=
  { httpStatus := fun _ => none
    isPackaged := true
    platformWin32 := false
    platformDarwin := false
    fileExists := fun _ => true
    dialogChoice := fun _ => 0 }

/-- Environment where no health request ever resolves. -/
def c5Env : Env :=
  { httpStatus := fun _ => none
    isPackaged := false
    platformWin32 := false
    platformDarwin := false
    fileExists := fun _ => false
    dialogChoice := fun _ => 1 }

/-- Packaged-mode environment whose bundled executable does not exist on the
filesystem. -/
def c6Env : Env :=
  { httpStatus := fun _ => none
    isPackaged := true
    platformWin32 := true
    platformDarwin := false
    fileExists := fun _ => false
    dialogChoice := fun _ => 1 }

/-- Development-mode environment where exactly the `python-dist` bundled
executable exists. -/
def c6DevEnv : Env :=
  { httpStatus := fun _ => none
    isPackaged := false
    platformWin32 := false
    platformDarwin := false
    fileExists := fun s => s == "electron-app/src/../../python-dist/covenantrix-service"
    dialogChoice := fun _ => 1 }

/-- Development-mode environment with no bundled executable, no venv
interpreter and no service script. -/
def c9Env : Env :=
  { httpStatus := fun _ => none
    isPackaged := false
    platformWin32 := false
    platformDarwin := false
    fileExists := fun _ => false
    dialogChoice := fun _ => 1 }

/-- C1, counterexample: in the `Ready` state reached under `c1Env` (the
`service-ready` notification was sent and the orchestrator owns the child it
spawned), delivering the process-exit notification leaves the application
state completely unchanged — no transition towards `Failed`, no recovery
prompt, no notification to the UI layer; the handler only logs the exit. -/
theorem C1_counterexample :
    c1ReadyState.serviceReadySent = 1 ∧
    c1ReadyState.pythonProcess = some 0 ∧
    (onPythonExit c1ReadyState (some 1) none).1 = c1ReadyState ∧
    (onPythonExit c1ReadyState (some 1) none).2 = [Effect.logExit (some 1) none] ∧
    (onPythonExit c1ReadyState (some 1) none).1.failureDialogs = 0 := by
  refine ⟨by decide, by decide, rfl, rfl, by decide⟩

/-- C1, amended: a process-exit notification received while `Ready` is only
logged by the registered exit handler — the state is unchanged and neither a
recovery prompt nor any UI notification is produced; the second half of the
claim holds: no entry point of the orchestrator ever increases the number of
`service-ready` notifications without a health probe issued during that very
call having returned success. -/
theorem C1_exit_only_logged_ready_needs_probe :
    (∀ (st : AppState) (c : Option Int) (sg : Option String),
      (onPythonExit st c sg).1 = st ∧
      Effect.showRecoveryDialog ∉ (onPythonExit st c sg).2 ∧
      Effect.notifyServiceReady ∉ (onPythonExit st c sg).2) ∧
    (∀ (env : Env) (st : AppState),
      st.serviceReadySent < (autoStartAndConnect env st).serviceReadySent →
      ∃ i, st.probeCount ≤ i ∧ i < (autoStartAndConnect env st).probeCount ∧
        probeSuccess (env.httpStatus i) = true) ∧
    (∀ (env : Env) (n : Nat) (st : AppState),
      st.serviceReadySent < (connectToExistingService env n st).1.serviceReadySent →
      ∃ i, st.probeCount ≤ i ∧ i < (connectToExistingService env n st).1.probeCount ∧
        probeSuccess (env.httpStatus i) = true) ∧
    (∀ (env : Env) (st : AppState),
      st.serviceReadySent < (showServiceConnectionOptions env st).serviceReadySent →
      ∃ i, st.probeCount ≤ i ∧ i < (showServiceConnectionOptions env st).probeCount ∧
        probeSuccess (env.httpStatus i) = true) := by
  refine ⟨?_, auto_ready_probe, connect_ready_probe, dialog_ready_probe⟩
  intro st c sg
  refine ⟨rfl, ?_, ?_⟩ <;> simp [onPythonExit]

/-- C1, witness: under `c1Env` the number of `service-ready` notifications
does increase across `autoStartAndConnect`, and the theorem produces the
successful probe that justified it. -/
theorem C1_witness :
    ∃ i, initState.probeCount ≤ i ∧
      i < (autoStartAndConnect c1Env initState).probeCount ∧
      probeSuccess (c1Env.httpStatus i) = true :=
  C1_exit_only_logged_ready_needs_probe.2.1 c1Env initState (by decide)

/-- C4, counterexample: invoked in the initial state — before any
`service-ready` notification, so before `Ready` — the `upload-file` handler
still performs a network attempt (exactly one) and returns the wrapped
network failure rather than rejecting the call up front. -/
theorem C4_counterexample :
    initState.serviceReadySent = 0 ∧
    (uploadFileHandler initState "/tmp/contract.pdf" "default"
      { ok := false, payload := "", errMsg := "ECONNREFUSED" }).2 = 1 ∧
    (uploadFileHandler initState "/tmp/contract.pdf" "default"
      { ok := false, payload := "", errMsg := "ECONNREFUSED" }).1.success = false := by
  refine ⟨by decide, by decide, by decide⟩

/-- C4, amended: the `upload-file` handler consults no connection state — in
every state it makes exactly one network attempt, and its success flag simply
mirrors the network outcome; a failure is returned as a structured
`success = false` result instead of an early caller error. -/
theorem C4_upload_checks_no_state (st : AppState) (filePath folderId : String)
    (net : NetOutcome) :
    (uploadFileHandler st filePath folderId net).2 = 1 ∧
    (uploadFileHandler st filePath folderId net).1.success = net.ok := by
  cases hok : net.ok <;> simp [uploadFileHandler, hok]

/-- C7: `disconnectFromService` is idempotent — applying it twice equals
applying it once, and whenever no process is owned (in particular before any
launch) it is a complete no-op on the state. -/
theorem C7_terminate_idempotent (st : AppState) :
    disconnectFromService (disconnectFromService st) = disconnectFromService st ∧
    (st.pythonProcess = none → disconnectFromService st = st) := by
  cases hpp : st.pythonProcess with
  | none => simp [disconnectFromService, hpp]
  | some pid =>
    constructor
    · simp [disconnectFromService, hpp]
    · intro h
      simp at h

/-- C7, witness: before any launch the handle is empty and
`disconnectFromService` leaves the initial state untouched. -/
theorem C7_witness : disconnectFromService initState = initState :=
  (C7_terminate_idempotent initState).2 rfl

/-- C8: across every sequence of orchestrator entry points started from the
initial state, every process ever killed is one the orchestrator itself
spawned, and the handle only ever references a process it spawned — a
service merely detected as already listening is never represented in
`spawned`, hence never owned and never killed. -/
theorem C8_kills_only_spawned (ops : List Op) :
    (∀ p, p ∈ (run ops initState).killed → p ∈ (run ops initState).spawned) ∧
    (∀ p, (run ops initState).pythonProcess = some p →
      p ∈ (run ops initState).spawned) :=
  run_owns ops initState init_owns

/-- C8, witness: a run that spawns a child (pre-check fails under `c1Env`)
and then disconnects has killed pid 0, and the theorem places that pid among
the spawned ones. -/
theorem C8_witness :
    0 ∈ (run [Op.autoStart c1Env, Op.disconnect] initState).spawned :=
  (C8_kills_only_spawned [Op.autoStart c1Env, Op.disconnect]).1 0 (by decide)

/-- C2, counterexample: under `c2xEnv` the fast pre-check resolves with HTTP
204 — a 2xx success within its timeout — yet the cycle does spawn a child
process and does not follow `Idle → Probing → Ready`, because the code only
honours `response.status === 200`. -/
theorem C2_counterexample :
    is2xx 204 = true ∧
    c2xEnv.httpStatus 0 = some 204 ∧
    (autoStartAndConnect c2xEnv initState).spawned = [0] ∧
    autoStartTrace c2xEnv initState ≠
      [ConnState.Idle, ConnState.Probing, ConnState.Ready] := by
  refine ⟨by decide, by decide, by decide, by decide⟩

/-- C2, amended: whenever the fast pre-check answers with status exactly 200
within its timeout, no process is spawned in that cycle, the handle is
untouched, exactly one `service-ready` notification is delivered, no failure
dialog appears, and the labelled trace is `Idle → Probing → Ready`. -/
theorem C2_fast_precheck_200 (env : Env) (st : AppState)
    (h : env.httpStatus st.probeCount = some 200) :
    (autoStartAndConnect env st).spawned = st.spawned ∧
    (autoStartAndConnect env st).pythonProcess = st.pythonProcess ∧
    (autoStartAndConnect env st).serviceReadySent = st.serviceReadySent + 1 ∧
    (autoStartAndConnect env st).probeCount = st.probeCount + 1 ∧
    (autoStartAndConnect env st).failureDialogs = st.failureDialogs ∧
    autoStartTrace env st = [ConnState.Idle, ConnState.Probing, ConnState.Ready] := by
  have hp : probeSuccess (env.httpStatus st.probeCount) = true := by
    rw [h]
    decide
  refine ⟨?_, ?_, ?_, ?_, ?_, ?_⟩ <;>
    simp [auto_pre_succ_eq env st hp, autoStartTrace, probeOnce, hp]

/-- C2, witness: under `c2Env` the pre-check answers 200 at once and the
amended claim's conclusions hold at the initial state. -/
theorem C2_witness :
    (autoStartAndConnect c2Env initState).spawned = initState.spawned ∧
    (autoStartAndConnect c2Env initState).pythonProcess = initState.pythonProcess ∧
    (autoStartAndConnect c2Env initState).serviceReadySent =
      initState.serviceReadySent + 1 ∧
    (autoStartAndConnect c2Env initState).probeCount = initState.probeCount + 1 ∧
    (autoStartAndConnect c2Env initState).failureDialogs = initState.failureDialogs ∧
    autoStartTrace c2Env initState =
      [ConnState.Idle, ConnState.Probing, ConnState.Ready] :=
  C2_fast_precheck_200 c2Env initState rfl

/-- C5, counterexample: the per-attempt timeout (1000 ms) is not strictly
smaller than the polling interval (1000 ms), and a run of two attempts that
both time out takes 4000 ms of worst-case elapsed time, exceeding the claimed
ceiling of `max_attempts x interval` = 2000 ms. -/
theorem C5_counterexample :
    ¬ probeAttemptTimeoutMs < probePollIntervalMs ∧
    connectTimedElapsed c5Env (fun _ => probeAttemptTimeoutMs) 2 0 = 4000 ∧
    ¬ connectTimedElapsed c5Env (fun _ => probeAttemptTimeoutMs) 2 0 ≤
      2 * probePollIntervalMs := by
  refine ⟨by decide, by decide, by decide⟩

/-- C5, amended: the per-attempt timeout equals the polling interval (1000 ms
each); when every attempt's duration respects the timeout, the whole
await-ready step finishes within `max_attempts x (timeout + interval)`
milliseconds, and the loop issues at most `max_attempts` probes. -/
theorem C5_timeout_equals_interval_bound :
    probeAttemptTimeoutMs = probePollIntervalMs ∧
    (∀ (env : Env) (attemptDuration : Nat → Nat),
      (∀ i, attemptDuration i ≤ probeAttemptTimeoutMs) → ∀ (n i : Nat),
      connectTimedElapsed env attemptDuration n i ≤
        n * (probeAttemptTimeoutMs + probePollIntervalMs)) ∧
    (∀ (env : Env) (n : Nat) (st : AppState),
      (connectToExistingService env n st).1.probeCount ≤ st.probeCount + n) :=
  ⟨rfl, connectTimedElapsed_le, connect_probeCount_le⟩

/-- C5, witness: three attempts of 500 ms each against an unresponsive
endpoint stay below the amended ceiling. -/
theorem C5_witness :
    connectTimedElapsed c5Env (fun _ => 500) 3 0 ≤
      3 * (probeAttemptTimeoutMs + probePollIntervalMs) := by
  have hd : ∀ i : Nat, (fun _ : Nat => (500 : Nat)) i ≤ probeAttemptTimeoutMs := by
    intro i
    show (500 : Nat) ≤ probeAttemptTimeoutMs
    decide
  exact C5_timeout_equals_interval_bound.2.1 c5Env (fun _ => 500) hd 3 0

/-- C6, counterexample: in packaged mode with the bundled executable missing
from the filesystem, `getPythonExecutablePath` still returns the populated
resources path — a descriptor pointing at a non-existent path. -/
theorem C6_counterexample :
    getPythonExecutablePath c6Env = some (packagedExecutablePath c6Env) ∧
    c6Env.fileExists (packagedExecutablePath c6Env) = false :=
  ⟨rfl, rfl⟩

/-- C6, amended: in development mode `getPythonExecutablePath` returns either
a path verified to exist or the absence signal; in installed (packaged) mode
it returns the fixed bundled-resources path with existence assumed, not
verified — the caller re-checks existence before spawning. -/
theorem C6_locate_dev_verified (env : Env) :
    (env.isPackaged = false → ∀ p, getPythonExecutablePath env = some p →
      env.fileExists p = true) ∧
    (env.isPackaged = true →
      getPythonExecutablePath env = some (packagedExecutablePath env)) := by
  constructor
  · intro hdev p hp
    simp only [getPythonExecutablePath, hdev, Bool.false_eq_true, if_false] at hp
    cases hf : env.fileExists (devExecutablePath env) with
    | false => simp [hf] at hp
    | true =>
      simp only [hf, if_true, Option.some.injEq] at hp
      rw [← hp]
      exact hf
  · intro hpack
    exact getPy_packaged env hpack

/-- C6, witness: in a development environment where exactly the `python-dist`
artifact exists, the returned path exists; in the packaged environment the
fixed path is returned. -/
theorem C6_witness :
    c6DevEnv.fileExists (devExecutablePath c6DevEnv) = true ∧
    getPythonExecutablePath c6Env = some (packagedExecutablePath c6Env) :=
  ⟨(C6_locate_dev_verified c6DevEnv).1 rfl (devExecutablePath c6DevEnv) (by decide),
   (C6_locate_dev_verified c6Env).2 rfl⟩

/-- C10, counterexample: `false` is a non-null `data` argument, yet with a
`POST` method the assembled configuration carries neither a request body nor
query parameters, because the code tests JavaScript truthiness, not
non-nullness. -/
theorem C10_counterexample :
    JsValue.vbool false ≠ JsValue.vnull ∧
    (buildApiCallConfig "POST" "/api/query" (JsValue.vbool false)).data = none ∧
    (buildApiCallConfig "POST" "/api/query" (JsValue.vbool false)).params = none := by
  refine ⟨by decide, rfl, rfl⟩

/-- C10, amended: for every truthy `data` argument a `GET` call carries the
data as query parameters and no body, any other method carries it as the body
and no parameters; a falsy `data` (including the non-null values `false`,
`0`, `""`) attaches neither. -/
theorem C10_truthy_routing (method endpoint : String) (data : JsValue) :
    (data.truthy = true → method = "GET" →
      (buildApiCallConfig method endpoint data).params = some data ∧
      (buildApiCallConfig method endpoint data).data = none) ∧
    (data.truthy = true → ¬ method = "GET" →
      (buildApiCallConfig method endpoint data).data = some data ∧
      (buildApiCallConfig method endpoint data).params = none) ∧
    (data.truthy = false →
      (buildApiCallConfig method endpoint data).params = none ∧
      (buildApiCallConfig method endpoint data).data = none) := by
  refine ⟨?_, ?_, ?_⟩
  · intro ht hm
    simp [buildApiCallConfig, ht, hm]
  · intro ht hm
    simp [buildApiCallConfig, ht, hm]
  · intro ht
    simp [buildApiCallConfig, ht]

/-- C10, witness: a truthy object on a `GET` call lands in the query
parameters with no body attached. -/
theorem C10_witness :
    (buildApiCallConfig "GET" "/api/documents"
      (JsValue.vobj [("folder_id", "f1")])).params =
      some (JsValue.vobj [("folder_id", "f1")]) ∧
    (buildApiCallConfig "GET" "/api/documents"
      (JsValue.vobj [("folder_id", "f1")])).data = none :=
  (C10_truthy_routing "GET" "/api/documents" (JsValue.vobj [("folder_id", "f1")])).1
    rfl rfl

theorem dialog_choice0_eq (env : Env) (st : AppState)
    (hch : env.dialogChoice st.failureDialogs = 0) :
    showServiceConnectionOptions env st =
      (startPythonService env
        { st with failureDialogs := st.failureDialogs + 1 }).1 := by
  simp [showServiceConnectionOptions, hch]

theorem dialog_nofiles (env : Env)
    (hdev : env.isPackaged = false)
    (hbundled : env.fileExists (devExecutablePath env) = false)
    (hfallback : env.fileExists (venvPythonPath env) = false ∨
      env.fileExists serviceScriptPath = false) (st : AppState) :
    (showServiceConnectionOptions env st).spawned = st.spawned ∧
    (showServiceConnectionOptions env st).pythonProcess = st.pythonProcess ∧
    (showServiceConnectionOptions env st).failureDialogs = st.failureDialogs + 1 ∧
    ((showServiceConnectionOptions env st).lastError = st.lastError ∨
     (showServiceConnectionOptions env st).lastError =
        some ("Venv Python executable not found at: " ++ venvPythonPath env) ∨
     (showServiceConnectionOptions env st).lastError =
        some ("Service script not found at: " ++ serviceScriptPath)) := by
  unfold showServiceConnectionOptions
  split_ifs with h0 h1 h2
  · obtain ⟨-, gsp, gpp, gfd, -, gle⟩ := start_fallback_fail env hdev hbundled hfallback
      ({ st with failureDialogs := st.failureDialogs + 1 })
    refine ⟨?_, ?_, ?_, Or.inr ?_⟩
    · rw [gsp]
    · rw [gpp]
    · rw [gfd]
    · exact gle
  · exact ⟨rfl, rfl, rfl, Or.inl rfl⟩
  · obtain ⟨csp, -, cpp, -, cfd, -, cle⟩ := connect_preserves env retryMaxAttempts
      ({ st with failureDialogs := st.failureDialogs + 1 })
    refine ⟨?_, ?_, ?_, Or.inl ?_⟩
    · rw [csp]
    · rw [cpp]
    · rw [cfd]
    · rw [cle]
  · exact ⟨rfl, rfl, rfl, Or.inl rfl⟩

/-- C3, counterexample: under `c3Env` (service never answers, bundled
executable present, user picks automatic retry) the cycle spawns process 0,
fails to connect, and the retry spawns process 1 while process 0 is still
live — two live orchestrator-spawned processes and no termination before the
second spawn. -/
theorem C3_counterexample :
    liveProcs (autoStartAndConnect c3Env initState) = [0, 1] ∧
    (autoStartAndConnect c3Env initState).killed = [] := by
  refine ⟨by decide, by decide⟩

/-- C3, amended: the orchestrator keeps only a single nullable handle field,
but starting a new process does not require the previous one to be
terminated: when a launched service never becomes ready and the user picks
the automatic-retry button, a second process is spawned with zero kills in
between, and the handle is overwritten to reference only the newer spawn. -/
theorem C3_retry_spawns_without_kill (env : Env) (st : AppState)
    (hall : ∀ i, probeSuccess (env.httpStatus i) = false)
    (hpack : env.isPackaged = true)
    (hex : env.fileExists (packagedExecutablePath env) = true)
    (hch : env.dialogChoice st.failureDialogs = 0) :
    (autoStartAndConnect env st).spawned =
      st.spawned ++ [st.nextPid, st.nextPid + 1] ∧
    (autoStartAndConnect env st).killed = st.killed ∧
    (autoStartAndConnect env st).pythonProcess = some (st.nextPid + 1) := by
  obtain ⟨-, hc2, -⟩ := connect_all_fail env hall postLaunchMaxAttempts
    (spawnProcess { st with probeCount := st.probeCount + 1 })
  obtain ⟨cs, ck, cp, cn, cf, -, -⟩ := connect_preserves env postLaunchMaxAttempts
    (spawnProcess { st with probeCount := st.probeCount + 1 })
  have hch2 : env.dialogChoice
      (connectToExistingService env postLaunchMaxAttempts
        (spawnProcess { st with probeCount := st.probeCount + 1 })).1.failureDialogs
        = 0 := by
    rw [cf]
    simpa [spawnProcess] using hch
  rw [auto_pre_fail_eq env st (hall st.probeCount),
      start_packaged_eq env _ hpack hex]
  simp only [hc2, Bool.false_eq_true, if_false, if_true]
  rw [dialog_choice0_eq env _ hch2,
      start_packaged_eq env _ hpack hex]
  simp only [spawnProcess] at cs ck cp cn ⊢
  refine ⟨?_, ?_, ?_⟩ <;> simp [cs, ck, cn]

/-- C3, witness: the amended claim evaluated under `c3Env` from the initial
state — spawn list `[0, 1]`, nothing killed, handle on process 1. -/
theorem C3_witness :
    (autoStartAndConnect c3Env initState).spawned =
      initState.spawned ++ [initState.nextPid, initState.nextPid + 1] ∧
    (autoStartAndConnect c3Env initState).killed = initState.killed ∧
    (autoStartAndConnect c3Env initState).pythonProcess =
      some (initState.nextPid + 1) :=
  C3_retry_spawns_without_kill c3Env initState (fun _ => rfl) rfl rfl rfl

/-- C9: when the fast pre-check fails, the app runs unpackaged with no
bundled `python-dist` artifact, and a fallback prerequisite (venv interpreter
or service script) is missing, the cycle spawns nothing, leaves the handle
untouched, shows exactly one failure decision point, records a descriptive
artifact-not-found message, and its labelled trace ends
`Launching → Failed`. -/
theorem C9_missing_artifacts_fail_no_spawn (env : Env) (st : AppState)
    (hpre : probeSuccess (env.httpStatus st.probeCount) = false)
    (hdev : env.isPackaged = false)
    (hbundled : env.fileExists (devExecutablePath env) = false)
    (hfallback : env.fileExists (venvPythonPath env) = false ∨
      env.fileExists serviceScriptPath = false) :
    (autoStartAndConnect env st).spawned = st.spawned ∧
    (autoStartAndConnect env st).pythonProcess = st.pythonProcess ∧
    (autoStartAndConnect env st).failureDialogs = st.failureDialogs + 1 ∧
    ((autoStartAndConnect env st).lastError =
        some ("Venv Python executable not found at: " ++ venvPythonPath env) ∨
     (autoStartAndConnect env st).lastError =
        some ("Service script not found at: " ++ serviceScriptPath)) ∧
    autoStartTrace env st =
      [ConnState.Idle, ConnState.Probing, ConnState.Launching, ConnState.Failed] := by
  obtain ⟨f2, fsp, fpp, ffd, -, fle⟩ := start_fallback_fail env hdev hbundled hfallback
    ({ st with probeCount := st.probeCount + 1 })
  obtain ⟨ds, dp, df, dl⟩ := dialog_nofiles env hdev hbundled hfallback
    (startPythonService env { st with probeCount := st.probeCount + 1 }).1
  have htrace : autoStartTrace env st =
      [ConnState.Idle, ConnState.Probing, ConnState.Launching, ConnState.Failed] := by
    simp [autoStartTrace, probeOnce, hpre, f2]
  rw [auto_pre_fail_eq env st hpre]
  simp only [f2, Bool.false_eq_true, if_false]
  refine ⟨?_, ?_, ?_, ?_, htrace⟩
  · rw [ds, fsp]
  · rw [dp, fpp]
  · rw [df, ffd]
  · cases dl with
    | inl hpres => rw [hpres] at *; exact fle
    | inr hnew => exact hnew

/-- C9, witness: under `c9Env` (development mode, no artifacts at all) the
initial cycle spawns nothing, shows one failure dialog, records the missing
venv interpreter, and the trace ends in `Failed`. -/
theorem C9_witness :
    (autoStartAndConnect c9Env initState).spawned = initState.spawned ∧
    (autoStartAndConnect c9Env initState).pythonProcess = initState.pythonProcess ∧
    (autoStartAndConnect c9Env initState).failureDialogs =
      initState.failureDialogs + 1 ∧
    ((autoStartAndConnect c9Env initState).lastError =
        some ("Venv Python executable not found at: " ++ venvPythonPath c9Env) ∨
     (autoStartAndConnect c9Env initState).lastError =
        some ("Service script not found at: " ++ serviceScriptPath)) ∧
    autoStartTrace c9Env initState =
      [ConnState.Idle, ConnState.Probing, ConnState.Launching, ConnState.Failed] :=
  C9_missing_artifacts_fail_no_spawn c9Env initState rfl rfl rfl (Or.inl rfl)
